import Mathlib

/-!
Verification of the P2P analytics pipeline (src/p.py) against its
natural-language specification.

The pipeline is a pandas script.  We embed it shallowly:

* A raw spreadsheet cell of the six monetary/quantity columns is `RawCell`;
  `pd.to_numeric(..., errors:=coerce)` becomes `toNumeric`, mapping
  non-numeric cells to `none` (pandas NaN).
* The two date columns are modelled after `pd.to_datetime(..., errors:=coerce)`
  has run: a parsed timestamp is a day index (`Int`, days since 1970-01-01)
  and an unparseable / missing date is `none` (pandas NaT).
* Float arithmetic is idealised as `ℚ`; NaN-valued series entries are
  `Option ℚ` with `none` for NaN.  Pandas comparison semantics
  (any comparison against NaN/NaT is `False`) are the `opt*` helpers.
* The frame `df` is a list of rows.  The script adds columns in stages
  (lines 25-57 of src/p.py); each stage is a structure extension, so a table
  sliced from the frame at an earlier line carries exactly the columns the
  frame had at that line.
* `groupby(keys).agg(sum)` keeps pandas defaults: rows whose key contains a
  null are dropped (`dropna:=True`), group keys are sorted ascending
  (`sort:=True`), and `sum` skips NaN (missing cells contribute 0).
-/

/-- A raw cell of one of the six monetary/quantity columns. -/
inductive RawCell where
  | blank : RawCell
  | num : ℚ → RawCell
  | text : String → RawCell
deriving DecidableEq

/-- `pd.to_numeric(..., errors:=coerce)` (src/p.py line 43): numeric cells
parse, everything else becomes NaN (`none`). -/
def toNumeric : RawCell → Option ℚ
  | RawCell.num q => some q
  | RawCell.blank => none
  | RawCell.text _ => none

/-- NaN-propagating subtraction (src/p.py line 50). -/
def optSub : Option ℚ → Option ℚ → Option ℚ
  | some a, some b => some (a - b)
  | _, _ => none

/-- Pandas `>` on possibly-NaN values: any comparison with NaN is False
(src/p.py line 46). -/
def optGtB : Option ℚ → Option ℚ → Bool
  | some a, some b => decide (b < a)
  | _, _ => false

/-- `x > 0` with NaN compared as False (src/p.py line 53). -/
def optPos : Option ℚ → Bool
  | some a => decide (0 < a)
  | none => false

/-- `x < 0` with NaN compared as False (src/p.py line 413). -/
def optNeg : Option ℚ → Bool
  | some a => decide (a < 0)
  | none => false

/-- `x == 0` with NaN compared as False (src/p.py line 57). -/
def optEqZero : Option ℚ → Bool
  | some a => decide (a = 0)
  | none => false

/-- Pandas `<` on possibly-NaT dates: comparisons with NaT are False
(src/p.py line 32). -/
def optLtDate : Option Int → Option Int → Bool
  | some a, some b => decide (a < b)
  | _, _ => false

/-- Pandas `>=` against a timestamp, NaT compared as False (src/p.py line 57). -/
def optGeDate : Option Int → Int → Bool
  | some a, t => decide (t ≤ a)
  | none, _ => false

/-- `(Delivery Date - Document Date).dt.days` (src/p.py lines 33 and 37):
`some` of the day difference when both dates parsed, NaN (`none`) otherwise. -/
def optDayDiff : Option Int → Option Int → Option Int
  | some a, some b => some (a - b)
  | _, _ => none

/-- One row of the uploaded snapshot, with the two date columns shown after
`pd.to_datetime(..., errors:=coerce)` (src/p.py lines 25-26): `none` is NaT,
standing for an empty or unparseable date cell. -/
structure RawRow where
  vendorName : Option String
  vendorNumber : Option String
  entityName : Option String
  category : Option String
  materialDescription : Option String
  serviceArea : Option String
  purchasingDocumentNumber : Option String
  documentDate : Option Int
  deliveryDate : Option Int
  orderedQuantityCell : RawCell
  deliveryQuantityCell : RawCell
  stillToDeliverCell : RawCell
  orderedValueCell : RawCell
  invoiceValueCell : RawCell
  downPaymentCell : RawCell
  grDocumentNumber : Option String
  irDocumentNumber : Option String
deriving DecidableEq

/-- Decimal digit character. -/
def digitChar (n : Nat) : Char := Char.ofNat (48 + n % 10)

/-- Decimal digits of `n`, most significant first; structural on fuel so the
kernel can evaluate it. -/
def natCharsAux : Nat → Nat → List Char
  | 0, _ => []
  | fuel + 1, n =>
      if n < 10 then [digitChar n]
      else natCharsAux fuel (n / 10) ++ [digitChar (n % 10)]

/-- Decimal digits of `n`. -/
def natChars (n : Nat) : List Char := natCharsAux (n + 1) n

/-- Left-pad a digit list with zeros to at least four characters. -/
def pad4 (cs : List Char) : List Char :=
  List.replicate (4 - cs.length) (Char.ofNat 48) ++ cs

/-- Two zero-padded digits of a month number. -/
def monthChars (m : Nat) : List Char := [digitChar (m / 10), digitChar (m % 10)]

/-- Civil calendar year and month of a day index (days since 1970-01-01). -/
def civilFromDays (z0 : Int) : Int × Int :=
  let z := z0 + 719468
  let era : Int := (if 0 ≤ z then z else z - 146096) / 146097
  let doe : Int := z - era * 146097
  let yoe : Int := (doe - doe / 1460 + doe / 36524 - doe / 146096) / 365
  let y : Int := yoe + era * 400
  let doy : Int := doe - (365 * yoe + yoe / 4 - yoe / 100)
  let mp : Int := (5 * doy + 2) / 153
  let m : Int := mp + (if mp < 10 then 3 else -9)
  (if m ≤ 2 then y + 1 else y, m)

/-- `Timestamp.to_period(M)` rendered as a string, e.g. (2024-03)
(src/p.py line 29 for a parsed document date). -/
def periodOfDay (d : Int) : String :=
  let ym := civilFromDays d
  String.mk (pad4 (natChars ym.1.toNat) ++ [Char.ofNat 45] ++ monthChars ym.2.toNat)

/-- `df[Month] = df[Document Date].dt.to_period(M).astype(str)`
(src/p.py line 29).  `astype(str)` renders NaT as the literal string (NaT),
not as a null. -/
def monthOfDoc : Option Int → String
  | some d => periodOfDay d
  | none => "NaT"

/-- The frame after normalization and the per-row derivations of
src/p.py lines 25-43 (dates, Month, anomaly flag, date difference,
delivery delay, delay reason, numeric coercion). -/
structure NRow where
  vendorName : Option String
  vendorNumber : Option String
  entityName : Option String
  category : Option String
  materialDescription : Option String
  serviceArea : Option String
  purchasingDocumentNumber : Option String
  documentDate : Option Int
  deliveryDate : Option Int
  month : String
  deliveryDateAnomaly : Bool
  dateDifference : Option Int
  deliveryDelay : Int
  whyPODelay : String
  orderedQuantity : Option ℚ
  deliveryQuantity : Option ℚ
  stillToDeliver : Option ℚ
  orderedValue : Option ℚ
  invoiceValue : Option ℚ
  downPayment : Option ℚ
  grDocumentNumber : Option String
  irDocumentNumber : Option String
deriving DecidableEq

/-- src/p.py lines 25-43 applied to one row. -/
def normRow (r : RawRow) : NRow :=
  { vendorName := r.vendorName
    vendorNumber := r.vendorNumber
    entityName := r.entityName
    category := r.category
    materialDescription := r.materialDescription
    serviceArea := r.serviceArea
    purchasingDocumentNumber := r.purchasingDocumentNumber
    documentDate := r.documentDate
    deliveryDate := r.deliveryDate
    month := monthOfDoc r.documentDate
    deliveryDateAnomaly := optLtDate r.deliveryDate r.documentDate
    dateDifference := optDayDiff r.deliveryDate r.documentDate
    deliveryDelay := (optDayDiff r.deliveryDate r.documentDate).getD (-1)
    whyPODelay :=
      if (optDayDiff r.deliveryDate r.documentDate).getD (-1) < 0 then
        ("PO raised after delivery")
      else ("")
    orderedQuantity := toNumeric r.orderedQuantityCell
    deliveryQuantity := toNumeric r.deliveryQuantityCell
    stillToDeliver := toNumeric r.stillToDeliverCell
    orderedValue := toNumeric r.orderedValueCell
    invoiceValue := toNumeric r.invoiceValueCell
    downPayment := toNumeric r.downPaymentCell
    grDocumentNumber := r.grDocumentNumber
    irDocumentNumber := r.irDocumentNumber }

/-- The frame after src/p.py line 46 added `Overbilling_Flag`. -/
structure FRow extends NRow where
  overbillingFlag : Bool
deriving DecidableEq

/-- src/p.py line 46: `df[Overbilling_Flag] = invoice > ordered`. -/
def flagRow (r : NRow) : FRow :=
  { toNRow := r
    overbillingFlag := optGtB r.invoiceValue r.orderedValue }

/-- The frame after src/p.py line 50 added `Overbilling Amount`. -/
structure ARow extends FRow where
  overbillingAmount : Option ℚ
deriving DecidableEq

/-- src/p.py line 50: `df[Overbilling Amount] = invoice - ordered`. -/
def amountRow (r : FRow) : ARow :=
  { toFRow := r
    overbillingAmount := optSub r.invoiceValue r.orderedValue }

/-- The frame after src/p.py line 57 added `On_Time`; this is the final `df`. -/
structure TRow extends ARow where
  onTime : Bool
deriving DecidableEq

/-- src/p.py line 57: `df[On_Time] = (Delivery Date >= current_date) |
(Still to Deliver == 0)`.  `now` is the value `pd.Timestamp.today()` took at
line 56 when the snapshot was processed. -/
def timeRow (now : Int) (r : ARow) : TRow :=
  { toARow := r
    onTime := optGeDate r.deliveryDate now || optEqZero r.stillToDeliver }

/-- The frame as of src/p.py line 46 (columns through `Overbilling_Flag`). -/
def dfF (raws : List RawRow) : List FRow := (raws.map normRow).map flagRow

/-- `overbilling_cases = df[df[Overbilling_Flag]]` (src/p.py line 47); sliced
before the `Overbilling Amount` and `On_Time` columns exist. -/
def overbilling_cases (raws : List RawRow) : List FRow :=
  (dfF raws).filter (fun r => r.overbillingFlag)

/-- The frame as of src/p.py line 50 (columns through `Overbilling Amount`). -/
def dfA (raws : List RawRow) : List ARow := (dfF raws).map amountRow

/-- `overbilling_df = df[df[Overbilling Amount] > 0]` (src/p.py line 53);
sliced before the `On_Time` column exists. -/
def overbilling_df (raws : List RawRow) : List ARow :=
  (dfA raws).filter (fun r => optPos r.overbillingAmount)

/-- The final frame `df` (src/p.py line 57), one row per uploaded record. -/
def finalDf (now : Int) (raws : List RawRow) : List TRow :=
  (dfA raws).map (timeRow now)

/-- Stable insertion into a sorted list: `x` goes before the first element
that does not strictly precede it. -/
def insertBy (lt : α → α → Bool) (x : α) : List α → List α
  | [] => [x]
  | y :: ys => if lt y x then y :: insertBy lt x ys else x :: y :: ys

/-- Stable sort by a strict comparator.  Models pandas `sort_values`: for
multi-key sorts pandas performs a stable lexicographic sort, which this
realises; for single-key sorts it also fixes ties to original row order. -/
def sortBy (lt : α → α → Bool) : List α → List α
  | [] => []
  | x :: xs => insertBy lt x (sortBy lt xs)

/-- Ascending comparator on strings. -/
def ltStr (a b : String) : Bool := decide (a < b)

/-- Lexicographic combination of comparators. -/
def lexLt (la : α → α → Bool) (ea : α → α → Bool) (lb : β → β → Bool) :
    α × β → α × β → Bool :=
  fun x y => la x.1 y.1 || (ea x.1 y.1 && lb x.2 y.2)

/-- String equality as a comparator component. -/
def eqStr (a b : String) : Bool := decide (a = b)

/-- Ascending lexicographic comparator on string pairs. -/
def ltK2 : String × String → String × String → Bool := lexLt ltStr eqStr ltStr

/-- Ascending lexicographic comparator on string 4-tuples. -/
def ltK4 : String × String × String × String → String × String × String × String → Bool :=
  lexLt ltStr eqStr (lexLt ltStr eqStr ltK2)

/-- Ascending lexicographic comparator on string 5-tuples. -/
def ltK5 : String × String × String × String × String →
    String × String × String × String × String → Bool :=
  lexLt ltStr eqStr ltK4

/-- Sum of a possibly-NaN metric over rows, NaN contributing 0: pandas
`sum` skips NaN and an empty group sums to 0. -/
def msum (m : R → Option ℚ) (rows : List R) : ℚ :=
  (rows.map (fun r => (m r).getD 0)).sum

/-- The distinct group keys of `groupby(keys, dropna:=True, sort:=True)`:
rows with a null in the key are dropped, keys are sorted ascending. -/
def groupKeys [DecidableEq K] (keyOf : R → Option K) (lt : K → K → Bool)
    (rows : List R) : List K :=
  sortBy lt ((rows.filterMap keyOf).dedup)

/-- The rows of one group. -/
def groupRows [DecidableEq K] (keyOf : R → Option K) (rows : List R) (k : K) :
    List R :=
  rows.filter (fun r => decide (keyOf r = some k))

/-- Grouping key of src/p.py lines 60, 104: Vendor Name, Vendor Number,
Entity Name, IT/NON-IT; `none` when any of the four is null. -/
def vendorKey (r : TRow) : Option (String × String × String × String) :=
  match r.vendorName, r.vendorNumber, r.entityName, r.category with
  | some a, some b, some c, some d => some (a, b, c, d)
  | _, _, _, _ => none

/-- Grouping key of src/p.py line 69: Material Description, IT/NON-IT. -/
def materialKey (r : TRow) : Option (String × String) :=
  match r.materialDescription, r.category with
  | some a, some b => some (a, b)
  | _, _ => none

/-- Grouping key of src/p.py line 78: Service Area, IT/NON-IT. -/
def serviceKey (r : TRow) : Option (String × String) :=
  match r.serviceArea, r.category with
  | some a, some b => some (a, b)
  | _, _ => none

/-- Grouping key of src/p.py line 93: Month plus the vendor key.  The Month
column is a string (never null, NaT having been rendered as the string (NaT)),
so only a null vendor field drops a row. -/
def monthlyKey (r : TRow) : Option (String × String × String × String × String) :=
  match r.vendorName, r.vendorNumber, r.entityName, r.category with
  | some a, some b, some c, some d => some (r.month, a, b, c, d)
  | _, _, _, _ => none

/-- A row of `total_spend_by_vendor` (src/p.py lines 60-66). -/
structure SpendRow where
  vendorName : String
  vendorNumber : String
  entityName : String
  category : String
  orderedSum : ℚ
  invoiceSum : ℚ
  downPaymentSum : ℚ
deriving DecidableEq

/-- src/p.py lines 60-66: `df.groupby([Vendor Name, Vendor Number,
Entity Name, IT/NON-IT]).agg(sum of the three monetary columns)`. -/
def total_spend_by_vendor (df : List TRow) : List SpendRow :=
  (groupKeys vendorKey ltK4 df).map (fun k =>
    { vendorName := k.1
      vendorNumber := k.2.1
      entityName := k.2.2.1
      category := k.2.2.2
      orderedSum := msum (fun r => r.orderedValue) (groupRows vendorKey df k)
      invoiceSum := msum (fun r => r.invoiceValue) (groupRows vendorKey df k)
      downPaymentSum := msum (fun r => r.downPayment) (groupRows vendorKey df k) })

/-- A row of `total_spend_by_material` (src/p.py lines 69-75). -/
structure MatRow where
  materialDescription : String
  category : String
  orderedSum : ℚ
  invoiceSum : ℚ
  downPaymentSum : ℚ
deriving DecidableEq

/-- src/p.py lines 69-75. -/
def total_spend_by_material (df : List TRow) : List MatRow :=
  (groupKeys materialKey ltK2 df).map (fun k =>
    { materialDescription := k.1
      category := k.2
      orderedSum := msum (fun r => r.orderedValue) (groupRows materialKey df k)
      invoiceSum := msum (fun r => r.invoiceValue) (groupRows materialKey df k)
      downPaymentSum := msum (fun r => r.downPayment) (groupRows materialKey df k) })

/-- A row of `total_spend_by_service_area` (src/p.py lines 78-84). -/
structure SvcRow where
  serviceArea : String
  category : String
  orderedSum : ℚ
  invoiceSum : ℚ
  downPaymentSum : ℚ
deriving DecidableEq

/-- src/p.py lines 78-84. -/
def total_spend_by_service_area (df : List TRow) : List SvcRow :=
  (groupKeys serviceKey ltK2 df).map (fun k =>
    { serviceArea := k.1
      category := k.2
      orderedSum := msum (fun r => r.orderedValue) (groupRows serviceKey df k)
      invoiceSum := msum (fun r => r.invoiceValue) (groupRows serviceKey df k)
      downPaymentSum := msum (fun r => r.downPayment) (groupRows serviceKey df k) })

/-- Descending-by-ordered-value comparator on vendor spend rows
(src/p.py line 87). -/
def ltDescV (a b : SpendRow) : Bool := decide (b.orderedSum < a.orderedSum)

/-- src/p.py line 87: sort the full vendor table descending by
Total PO Ordered Value and keep the first 10 rows. -/
def top_10_vendors (df : List TRow) : List SpendRow :=
  (sortBy ltDescV (total_spend_by_vendor df)).take 10

/-- Descending-by-ordered-value comparator on material spend rows
(src/p.py line 90). -/
def ltDescMat (a b : MatRow) : Bool := decide (b.orderedSum < a.orderedSum)

/-- src/p.py line 90. -/
def top_10_materials (df : List TRow) : List MatRow :=
  (sortBy ltDescMat (total_spend_by_material df)).take 10

/-- A row of `monthly_spend` (src/p.py lines 93-101). -/
structure MSpendRow where
  month : String
  vendorName : String
  vendorNumber : String
  entityName : String
  category : String
  orderedSum : ℚ
  invoiceSum : ℚ
  downPaymentSum : ℚ
deriving DecidableEq

/-- src/p.py lines 93-97: groupby Month plus the vendor key, three sums. -/
def monthly_spend (df : List TRow) : List MSpendRow :=
  (groupKeys monthlyKey ltK5 df).map (fun k =>
    { month := k.1
      vendorName := k.2.1
      vendorNumber := k.2.2.1
      entityName := k.2.2.2.1
      category := k.2.2.2.2
      orderedSum := msum (fun r => r.orderedValue) (groupRows monthlyKey df k)
      invoiceSum := msum (fun r => r.invoiceValue) (groupRows monthlyKey df k)
      downPaymentSum := msum (fun r => r.downPayment) (groupRows monthlyKey df k) })

/-- src/p.py line 98 comparator: Month ascending, then ordered value
descending (a stable lexicographic sort in pandas). -/
def ltLexM (a b : MSpendRow) : Bool :=
  decide (a.month < b.month) || (decide (a.month = b.month) && decide (b.orderedSum < a.orderedSum))

/-- src/p.py line 98: `monthly_spend.sort_values(by:=[Month, ordered value],
ascending:=[True, False])`. -/
def monthly_spend_sorted (df : List TRow) : List MSpendRow :=
  sortBy ltLexM (monthly_spend df)

/-- `groupby(Month).head(n)`: the first `n` rows of each month in the order
they appear, keeping the overall row order; `cnt` counts rows already seen
per month. -/
def headPerMonth (n : Nat) : List MSpendRow → (String → Nat) → List MSpendRow
  | [], _ => []
  | r :: rs, cnt =>
      if cnt r.month < n then
        r :: headPerMonth n rs (fun m => if m = r.month then cnt m + 1 else cnt m)
      else
        headPerMonth n rs (fun m => if m = r.month then cnt m + 1 else cnt m)

/-- src/p.py line 99: `monthly_spend.groupby(Month).head(10)`. -/
def top_10_vendors_monthly (df : List TRow) : List MSpendRow :=
  headPerMonth 10 (monthly_spend_sorted df) (fun _ => 0)

/-- Round an idealised float to the nearest integer, ties to even
(numpy rounding). -/
def roundHalfEven (q : ℚ) : Int :=
  let f := Rat.floor q
  let r := q - (f : ℚ)
  if r < 1 / 2 then f
  else if 1 / 2 < r then f + 1
  else if f % 2 = 0 then f else f + 1

/-- `.round(2)` (src/p.py line 116). -/
def round2 (q : ℚ) : ℚ := ((roundHalfEven (q * 100) : ℚ)) / 100

/-- A row of `vendor_summary` (src/p.py lines 104-123). -/
structure VSumRow where
  vendorName : String
  vendorNumber : String
  entityName : String
  category : String
  totalOrders : ℚ
  totalDelivered : ℚ
  totalPending : ℚ
  orderedSum : ℚ
  invoiceSum : ℚ
  downPaymentSum : ℚ
  deliveryPct : ℚ
deriving DecidableEq

/-- src/p.py lines 104-123: vendor groupby with six sums, then
`Delivery_Percentage = np.where(Total_Orders > 0,
Total_Delivered / Total_Orders * 100, 0).round(2)`. -/
def vendor_summary (df : List TRow) : List VSumRow :=
  (groupKeys vendorKey ltK4 df).map (fun k =>
    let g := groupRows vendorKey df k
    let tord := msum (fun r => r.orderedQuantity) g
    let tdel := msum (fun r => r.deliveryQuantity) g
    { vendorName := k.1
      vendorNumber := k.2.1
      entityName := k.2.2.1
      category := k.2.2.2
      totalOrders := tord
      totalDelivered := tdel
      totalPending := msum (fun r => r.stillToDeliver) g
      orderedSum := msum (fun r => r.orderedValue) g
      invoiceSum := msum (fun r => r.invoiceValue) g
      downPaymentSum := msum (fun r => r.downPayment) g
      deliveryPct := round2 (if 0 < tord then tdel / tord * 100 else 0) })

/-- A row of `delayed_pos` after the projection of src/p.py lines 127-132. -/
structure DelayedRow where
  purchasingDocumentNumber : Option String
  documentDate : Option Int
  deliveryDate : Option Int
  deliveryDelay : Int
  whyPODelay : String
  category : Option String
  vendorNumber : Option String
  entityName : Option String
deriving DecidableEq

/-- src/p.py lines 126-132: rows missing a GR or an IR reference, projected
to the eight output columns. -/
def delayed_pos (df : List TRow) : List DelayedRow :=
  (df.filter (fun r => r.grDocumentNumber.isNone || r.irDocumentNumber.isNone)).map
    (fun r =>
      { purchasingDocumentNumber := r.purchasingDocumentNumber
        documentDate := r.documentDate
        deliveryDate := r.deliveryDate
        deliveryDelay := r.deliveryDelay
        whyPODelay := r.whyPODelay
        category := r.category
        vendorNumber := r.vendorNumber
        entityName := r.entityName })

/-- src/p.py line 135: `df[df[Delivery Quantity] > df[Ordered Quantity]]`.
Sliced from the final frame, so its rows carry the On_Time column. -/
def quantity_errors (df : List TRow) : List TRow :=
  df.filter (fun r => optGtB r.deliveryQuantity r.orderedQuantity)

/-- A row of `spend_trend` (src/p.py lines 138-141). -/
structure TrendRow where
  month : String
  orderedSum : ℚ
  invoiceSum : ℚ
deriving DecidableEq

/-- src/p.py lines 138-141: groupby Month (a plain string column, so no row
is ever dropped), two sums. -/
def spend_trend (df : List TRow) : List TrendRow :=
  (groupKeys (fun r => some r.month) ltStr df).map (fun k =>
    { month := k
      orderedSum := msum (fun r => r.orderedValue) (groupRows (fun r => some r.month) df k)
      invoiceSum := msum (fun r => r.invoiceValue) (groupRows (fun r => some r.month) df k) })

/-- A row of `vendor_spend` (src/p.py lines 143-146). -/
structure VendRow where
  vendorName : String
  orderedSum : ℚ
  invoiceSum : ℚ
deriving DecidableEq

/-- src/p.py lines 143-146. -/
def vendor_spend (df : List TRow) : List VendRow :=
  (groupKeys (fun r => r.vendorName) ltStr df).map (fun k =>
    { vendorName := k
      orderedSum := msum (fun r => r.orderedValue) (groupRows (fun r => r.vendorName) df k)
      invoiceSum := msum (fun r => r.invoiceValue) (groupRows (fun r => r.vendorName) df k) })

/-- A row of `entity_spend` (src/p.py line 148). -/
structure EntRow where
  entityName : String
  orderedSum : ℚ
deriving DecidableEq

/-- src/p.py line 148. -/
def entity_spend (df : List TRow) : List EntRow :=
  (groupKeys (fun r => r.entityName) ltStr df).map (fun k =>
    { entityName := k
      orderedSum := msum (fun r => r.orderedValue) (groupRows (fun r => r.entityName) df k) })

/-- A row of the underbilling view (src/p.py lines 413-414): the final frame
plus the sign-inverted `Underbilling Amount` column. -/
structure URow extends TRow where
  underbillingAmount : Option ℚ
deriving DecidableEq

/-- src/p.py lines 413-414: `df[df[Overbilling Amount] < 0]` with
`Underbilling Amount = -Overbilling Amount`. -/
def underbilling_df (df : List TRow) : List URow :=
  (df.filter (fun r => optNeg r.overbillingAmount)).map (fun r =>
    { toTRow := r
      underbillingAmount := r.overbillingAmount.map (fun q => -q) })

/-- The tables stored in `st.session_state` (src/p.py lines 150-168). -/
structure PipelineResult where
  total_spend_by_vendor : List SpendRow
  total_spend_by_material : List MatRow
  total_spend_by_service_area : List SvcRow
  top_10_vendors : List SpendRow
  top_10_materials : List MatRow
  top_10_vendors_monthly : List MSpendRow
  vendor_summary : List VSumRow
  delayed_pos : List DelayedRow
  quantity_errors : List TRow
  overbilling_cases : List FRow
  df : List TRow
  spend_trend : List TrendRow
  vendor_spend : List VendRow
  entity_spend : List EntRow
  overbilling_df : List ARow
deriving DecidableEq

/-- The whole processing block of src/p.py lines 22-168 as one function of the
snapshot and of the instant `pd.Timestamp.today()` returned at line 56. -/
def runPipeline (now : Int) (raws : List RawRow) : PipelineResult :=
  { total_spend_by_vendor := total_spend_by_vendor (finalDf now raws)
    total_spend_by_material := total_spend_by_material (finalDf now raws)
    total_spend_by_service_area := total_spend_by_service_area (finalDf now raws)
    top_10_vendors := top_10_vendors (finalDf now raws)
    top_10_materials := top_10_materials (finalDf now raws)
    top_10_vendors_monthly := top_10_vendors_monthly (finalDf now raws)
    vendor_summary := vendor_summary (finalDf now raws)
    delayed_pos := delayed_pos (finalDf now raws)
    quantity_errors := quantity_errors (finalDf now raws)
    overbilling_cases := overbilling_cases raws
    df := finalDf now raws
    spend_trend := spend_trend (finalDf now raws)
    vendor_spend := vendor_spend (finalDf now raws)
    entity_spend := entity_spend (finalDf now raws)
    overbilling_df := overbilling_df raws }

/-- The required input columns of the snapshot (spec section 6). -/
def requiredColumns : List String :=
  ["Vendor Name", "Vendor Number", "Entity Name", "IT/NON-IT",
   "Material Description", "Service Area", "Purchasing Document Number",
   "Document Date", "Delivery Date", "Ordered Quantity", "Delivery Quantity",
   "Still to Deliver", "PO Ordered Value in Loc. Curr.",
   "PO Invoice Value in Loc. Curr.", "PO Down Payment",
   "GR Document Number", "IR Document Number"]

/-- The input columns src/p.py reads unconditionally before the tables are
stored at line 151, in source order (lines 25, 26, 41-43, 60, 69, 78, 126).
A `df[c]` access with `c` absent raises a KeyError, aborting the script.
`Purchasing Document Number` is absent from this list: it is only touched
through the existence-filtered projection of line 131. -/
def accessedColumns : List String :=
  ["Document Date", "Delivery Date",
   "PO Ordered Value in Loc. Curr.", "PO Invoice Value in Loc. Curr.",
   "Ordered Quantity", "Delivery Quantity", "PO Down Payment",
   "Still to Deliver", "Vendor Name", "Vendor Number", "Entity Name",
   "IT/NON-IT", "Material Description", "Service Area",
   "GR Document Number", "IR Document Number"]

/-- The columns the script itself has added to `df` by line 131. -/
def derivedColumns : List String :=
  ["Month", "Delivery_Date_Anomaly", "Date_Difference", "Delivery Delay",
   "Why PO Delay", "Overbilling_Flag", "Overbilling Amount", "On_Time"]

/-- The Delayed-POs output columns of src/p.py lines 127-130. -/
def delayedOutputColumns : List String :=
  ["Purchasing Document Number", "Document Date", "Delivery Date",
   "Delivery Delay", "Why PO Delay", "IT/NON-IT", "Vendor Number",
   "Entity Name"]

/-- Column-presence behaviour of the processing block: the first accessed
column missing from the uploaded schema raises (KeyError, modelled as
`Except.error` naming the column) and nothing downstream runs; with every
accessed column present the block completes and the Delayed-POs projection
keeps only the output columns that exist (src/p.py line 131). -/
def processSchema (cols : List String) : Except String (List String) :=
  match accessedColumns.find? (fun c => !(cols.contains c)) with
  | some c => Except.error c
  | none => Except.ok (delayedOutputColumns.filter (fun c => (cols ++ derivedColumns).contains c))

/-- Grouping key of src/p.py line 60 read off the raw record (the four
fields are copied unchanged by normalization). -/
def rawVendorKey (r : RawRow) : Option (String × String × String × String) :=
  match r.vendorName, r.vendorNumber, r.entityName, r.category with
  | some a, some b, some c, some d => some (a, b, c, d)
  | _, _, _, _ => none

/-- The full per-row derivation chain src/p.py lines 25-57. -/
def deriveRow (now : Int) (r : RawRow) : TRow :=
  timeRow now (amountRow (flagRow (normRow r)))

/-- Follows the spec wording (sections 3 and 4.2) for the on-time flag:
true iff the delivery date is strictly in the future relative to the
processing instant, or the still-to-deliver quantity is exactly zero. -/
def isOnTimeSpec (now : Int) (r : RawRow) : Bool :=
  (match r.deliveryDate with
   | some d => decide (now < d)
   | none => false)
  ||
  (match toNumeric r.stillToDeliverCell with
   | some q => decide (q = 0)
   | none => false)

/-- A fully populated input row used as the base of the concrete examples:
every text field present, both dates missing, all six numeric cells parsed. -/
def baseRaw : RawRow :=
  { vendorName := some ("V")
    vendorNumber := some ("1")
    entityName := some ("E")
    category := some ("IT")
    materialDescription := some ("M")
    serviceArea := some ("S")
    purchasingDocumentNumber := some ("P")
    documentDate := none
    deliveryDate := none
    orderedQuantityCell := RawCell.num 1
    deliveryQuantityCell := RawCell.num 1
    stillToDeliverCell := RawCell.num 0
    orderedValueCell := RawCell.num 100
    invoiceValueCell := RawCell.num 100
    downPaymentCell := RawCell.num 0
    grDocumentNumber := some ("G")
    irDocumentNumber := some ("I") }

/-- A row with a present delivery date but a null document date. -/
def r4cex : RawRow := { baseRaw with deliveryDate := some 3 }

/-- A row with both dates present (delivery 10, document 3). -/
def r4w : RawRow := { baseRaw with documentDate := some 3, deliveryDate := some 10 }

/-- A row whose invoice cell fails numeric coercion. -/
def r5cex : RawRow := { baseRaw with invoiceValueCell := RawCell.text ("n/a") }

/-- A row invoiced 120 against 100 ordered (overbilled by 20). -/
def r5over : RawRow := { baseRaw with invoiceValueCell := RawCell.num 120 }

/-- A row with delivery date on day 5 and one unit still to deliver. -/
def r8cex : RawRow := { baseRaw with deliveryDate := some 5, stillToDeliverCell := RawCell.num 1 }

/-- A row with delivery date on day 5 and one unit still to deliver. -/
def r9cex : RawRow := { baseRaw with deliveryDate := some 5, stillToDeliverCell := RawCell.num 1 }

/-- A row ordering 4 units with 3 delivered. -/
def r3c : RawRow :=
  { baseRaw with orderedQuantityCell := RawCell.num 4, deliveryQuantityCell := RawCell.num 3 }

/-- The vendor summary row produced from `r3c` alone. -/
def vRow3 : VSumRow :=
  { vendorName := ("V")
    vendorNumber := ("1")
    entityName := ("E")
    category := ("IT")
    totalOrders := 4
    totalDelivered := 3
    totalPending := 0
    orderedSum := 100
    invoiceSum := 100
    downPaymentSum := 0
    deliveryPct := 75 }

/-- A row with a null document date (both dates of `baseRaw` are null). -/
def r6cex : RawRow := baseRaw

/-- The single-row input of the top-N example. -/
def r7w : RawRow := baseRaw

/-- Descending-by-ordered-value comparator on monthly spend rows (the
per-month sub-sort of the claimed Top-10 derivation). -/
def ltDescM (a b : MSpendRow) : Bool := decide (b.orderedSum < a.orderedSum)

/-- Whether an optional key is among a list of keys (a null key never is). -/
def memOptKey [DecidableEq K] (keys : List K) : Option K → Bool
  | some k => decide (k ∈ keys)
  | none => false

/-! ### Helper lemmas -/

theorem msum_nil (m : R → Option ℚ) : msum m [] = 0 := rfl

theorem msum_cons (m : R → Option ℚ) (r : R) (l : List R) :
    msum m (r :: l) = (m r).getD 0 + msum m l := by
  simp [msum]

theorem insertBy_perm (lt : α → α → Bool) (x : α) (l : List α) :
    (insertBy lt x l).Perm (x :: l) := by
  induction l with
  | nil => exact List.Perm.refl _
  | cons y ys ih =>
      unfold insertBy
      by_cases h : lt y x
      · simp only [h, if_pos]
        exact ((ih.cons y).trans (List.Perm.swap x y ys))
      · simp only [h, if_neg, Bool.false_eq_true, not_false_iff]
        exact List.Perm.refl _

theorem sortBy_perm (lt : α → α → Bool) (l : List α) : (sortBy lt l).Perm l := by
  induction l with
  | nil => exact List.Perm.refl _
  | cons x xs ih => exact (insertBy_perm lt x (sortBy lt xs)).trans (ih.cons x)

theorem sortBy_length (lt : α → α → Bool) (l : List α) :
    (sortBy lt l).length = l.length :=
  (sortBy_perm lt l).length_eq

theorem sortBy_take_all (lt : α → α → Bool) (l : List α) (h : l.length ≤ 10) :
    (sortBy lt l).take 10 = sortBy lt l :=
  List.take_of_length_le (by rw [sortBy_length]; exact h)

theorem filter_map_commute (f : α → β) (p : β → Bool) (l : List α) :
    (l.map f).filter p = (l.filter (fun a => p (f a))).map f := by
  induction l with
  | nil => rfl
  | cons a l ih =>
      by_cases h : p (f a)
      · simp [List.filter_cons, h, ih]
      · simp [List.filter_cons, h, ih]

theorem msum_map (m : β → Option ℚ) (f : α → β) (l : List α) :
    msum m (l.map f) = msum (fun a => m (f a)) l := by
  simp [msum, List.map_map]; rfl

theorem optPos_optSub (a b : Option ℚ) : optPos (optSub a b) = optGtB a b := by
  cases a <;> cases b <;> simp [optPos, optSub, optGtB, sub_pos]

/-- Claim C10: the rows picked by the comparison filter `invoice > ordered`
(src/p.py lines 46-47, table `overbilling_cases`) are exactly the rows picked
by the subtraction filter `invoice - ordered > 0` (src/p.py lines 50-53,
table `overbilling_df`); the two tables hold the same records and differ only
in the derived columns their frames carried when sliced. -/
theorem c10_overbilling_filters_agree (raws : List RawRow) :
    (overbilling_df raws).map (fun r => r.toFRow) = overbilling_cases raws := by
  unfold overbilling_df overbilling_cases dfA
  rw [filter_map_commute amountRow (fun r => optPos r.overbillingAmount) (dfF raws)]
  rw [List.map_map]
  have h1 : ∀ r : FRow, optPos ((amountRow r).overbillingAmount) =
      optGtB r.invoiceValue r.orderedValue := by
    intro r
    exact optPos_optSub r.invoiceValue r.orderedValue
  rw [List.filter_congr (fun r _ => h1 r)]
  have h2 : ((fun r : ARow => r.toFRow) ∘ amountRow) = id := rfl
  rw [h2, List.map_id]
  apply List.filter_congr
  intro x hx
  unfold dfF at hx
  rcases List.mem_map.mp hx with ⟨n, _, rfl⟩
  rfl

/-- Claim C4 as stated is false: `Delivery Delay` (src/p.py line 37) is `-1`
for a row whose delivery date is present (day 3) but whose document date is
null, because the subtraction is NaN and `fillna(-1)` applies. -/
theorem c4_counterexample :
    (normRow r4cex).deliveryDelay = -1 ∧ r4cex.deliveryDate = some 3 := by
  exact ⟨rfl, rfl⟩

/-- Claim C4, amended: `Delivery Delay` is `-1` iff the dates' day difference
is unavailable (either date null) or that difference is exactly `-1`; whenever
both dates are present it equals the exact day difference (delivery minus
document), which can be negative. -/
theorem c4_delivery_delay_amended (r : RawRow) :
    ((normRow r).deliveryDelay = -1 ↔
      ((normRow r).dateDifference = none ∨ (normRow r).dateDifference = some (-1)))
    ∧ (∀ a b, r.deliveryDate = some a → r.documentDate = some b →
        (normRow r).deliveryDelay = a - b) := by
  constructor
  · show (optDayDiff r.deliveryDate r.documentDate).getD (-1) = -1 ↔ _
    cases h1 : r.deliveryDate <;> cases h2 : r.documentDate <;>
      simp [normRow, optDayDiff, h1, h2]
  · intro a b h1 h2
    show (optDayDiff r.deliveryDate r.documentDate).getD (-1) = a - b
    rw [h1, h2]
    rfl

/-- Witness for the amended C4 at a concrete row (delivery day 10, document
day 3). -/
theorem c4_witness : (normRow r4w).deliveryDelay = 10 - 3 :=
  (c4_delivery_delay_amended r4w).2 10 3 rfl rfl

/-- Claim C8 as stated is false on the strict reading of (in the future): at
the processing instant equal to the delivery date (day 5) with one unit still
to deliver, src/p.py line 57 sets `On_Time` (it uses `>=`), while the spec
wording (strictly in the future, or nothing left to deliver) is false. -/
theorem c8_counterexample :
    (deriveRow 5 r8cex).onTime = true ∧ isOnTimeSpec 5 r8cex = false := by
  exact ⟨rfl, rfl⟩

/-- Claim C8, amended: `On_Time` is true iff the delivery date is on or after
the processing instant, or the still-to-deliver quantity coerces to exactly
zero.  The instant itself is `pd.Timestamp.today()` read inside the
processing block (src/p.py line 56), not an injected parameter; it enters the
embedding as the argument `now`. -/
theorem c8_on_time_amended (now : Int) (r : RawRow) :
    (deriveRow now r).onTime = true ↔
      ((∃ d, r.deliveryDate = some d ∧ now ≤ d) ∨
        toNumeric r.stillToDeliverCell = some 0) := by
  show (optGeDate r.deliveryDate now || optEqZero (toNumeric r.stillToDeliverCell)) = true ↔ _
  cases h1 : r.deliveryDate <;> cases h2 : toNumeric r.stillToDeliverCell <;>
    simp [optGeDate, optEqZero, h1, h2]

/-- Claim C2 as stated is false: with the required column
`Purchasing Document Number` absent (and every other column present) the
processing block does not fail -- the column is only touched through the
existence-filtered projection of src/p.py line 131 -- and the stored tables
are produced, merely missing that column from the Delayed-POs projection. -/
theorem c2_counterexample :
    ("Purchasing Document Number" ∈ requiredColumns)
    ∧ ("Purchasing Document Number" ∉ requiredColumns.erase ("Purchasing Document Number"))
    ∧ (processSchema (requiredColumns.erase ("Purchasing Document Number"))).isOk = true := by
  exact ⟨by decide, by decide, by decide⟩

/-- Claim C2, amended: for every input column the block actually reads before
storing its tables (all required columns except `Purchasing Document Number`),
absence of that column makes the block abort with a column-lookup error
(a KeyError naming a missing column) before any output table is produced. -/
theorem c2_schema_amended (cols : List String) (c : String)
    (hc : c ∈ accessedColumns) (hn : cols.contains c = false) :
    ∃ e, processSchema cols = Except.error e := by
  unfold processSchema
  cases hf : accessedColumns.find? (fun c => !(cols.contains c)) with
  | some e => exact ⟨e, rfl⟩
  | none =>
      exfalso
      have h := List.find?_eq_none.mp hf c hc
      rw [hn] at h
      exact h rfl

/-- Witness for the amended C2: an empty schema aborts. -/
theorem c2_witness : ∃ e, processSchema [] = Except.error e :=
  c2_schema_amended [] ("Document Date") (by decide) (by decide)

/-- Claim C9 as stated is false: the stored `df` table is not a function of
the raw input alone.  For a snapshot with delivery date on day 5 and one unit
still to deliver, processing at instant 4 and at instant 6 stores different
tables (the `On_Time` column flips). -/
theorem c9_counterexample : runPipeline 4 [r9cex] ≠ runPipeline 6 [r9cex] := by
  intro h
  have h2 := congrArg PipelineResult.df h
  have h3 := congrArg (fun l => l.map TRow.onTime) h2
  simp only [runPipeline] at h3
  exact absurd h3 (by decide)

/-- Claim C5 as stated is false: a record whose invoice cell fails numeric
coercion has a NaN `Overbilling Amount`, so it lands in none of the three
sets -- not in `overbilling_df` (NaN > 0 is False), not among the
underbilling rows (NaN < 0 is False), and not among the exact matches
(NaN == 0 is False) -- even though it is in the record set. -/
theorem c5_counterexample :
    overbilling_df [r5cex] = []
    ∧ underbilling_df (finalDf 0 [r5cex]) = []
    ∧ (finalDf 0 [r5cex]).map (fun r => decide (r.overbillingAmount = some 0)) = [false]
    ∧ (finalDf 0 [r5cex]).length = 1 := by
  exact ⟨rfl, rfl, rfl, rfl⟩

/-- Claim C5, amended: the overbilling rows, the underbilling rows and the
exact matches are pairwise disjoint, and their union is exactly the records
whose `Overbilling Amount` is non-null (both monetary cells parsed); a record
with a null amount lies in none of the three. -/
theorem c5_partition_amended (now : Int) (raws : List RawRow) (r : TRow)
    (hr : r ∈ finalDf now raws) :
    ((r.toARow ∈ overbilling_df raws
        ∨ (∃ u ∈ underbilling_df (finalDf now raws), u.toTRow = r)
        ∨ r.overbillingAmount = some 0)
      ↔ r.overbillingAmount ≠ none)
    ∧ ¬ (r.toARow ∈ overbilling_df raws
          ∧ ∃ u ∈ underbilling_df (finalDf now raws), u.toTRow = r)
    ∧ ¬ (r.toARow ∈ overbilling_df raws ∧ r.overbillingAmount = some 0)
    ∧ ¬ ((∃ u ∈ underbilling_df (finalDf now raws), u.toTRow = r)
          ∧ r.overbillingAmount = some 0) := by
  have hrm := hr
  obtain ⟨a, ha, rfl⟩ := List.mem_map.mp hr
  have hover : ((timeRow now a).toARow ∈ overbilling_df raws) ↔ optPos a.overbillingAmount = true := by
    show a ∈ overbilling_df raws ↔ _
    unfold overbilling_df
    rw [List.mem_filter]
    exact ⟨fun h => h.2, fun h => ⟨ha, h⟩⟩
  have hunder : (∃ u ∈ underbilling_df (finalDf now raws), u.toTRow = timeRow now a)
      ↔ optNeg a.overbillingAmount = true := by
    unfold underbilling_df
    constructor
    · rintro ⟨u, hu, hur⟩
      rcases List.mem_map.mp hu with ⟨t, ht, rfl⟩
      have h2 : t = timeRow now a := hur
      subst h2
      exact (List.mem_filter.mp ht).2
    · intro h
      refine ⟨⟨timeRow now a, (timeRow now a).overbillingAmount.map (fun q => -q)⟩, ?_, rfl⟩
      exact List.mem_map.mpr ⟨timeRow now a, List.mem_filter.mpr ⟨hrm, h⟩, rfl⟩
  have hamt : (timeRow now a).overbillingAmount = a.overbillingAmount := rfl
  rw [hover, hunder, hamt]
  cases hA : a.overbillingAmount with
  | none => simp [optPos, optNeg]
  | some q =>
      simp only [optPos, optNeg, decide_eq_true_eq, Option.some.injEq, ne_eq,
        reduceCtorEq, not_false_iff, iff_true]
      refine ⟨?_, ?_, ?_, ?_⟩
      · rcases lt_trichotomy q 0 with h | h | h
        · exact Or.inr (Or.inl h)
        · exact Or.inr (Or.inr h)
        · exact Or.inl h
      · rintro ⟨h1, h2⟩
        exact absurd h1 (not_lt_of_gt h2)
      · rintro ⟨h1, h2⟩
        subst h2
        exact lt_irrefl 0 h1
      · rintro ⟨h1, h2⟩
        subst h2
        exact lt_irrefl 0 h1

/-- Witness for the amended C5: the record invoiced 120 against 100 ordered
falls into the union of the three sets. -/
theorem c5_witness :
    (deriveRow 0 r5over).toARow ∈ overbilling_df [r5over]
      ∨ (∃ u ∈ underbilling_df (finalDf 0 [r5over]), u.toTRow = deriveRow 0 r5over)
      ∨ (deriveRow 0 r5over).overbillingAmount = some 0 :=
  ((c5_partition_amended 0 [r5over] (deriveRow 0 r5over)
      (by with_unfolding_all decide)).1).mpr (by with_unfolding_all decide)

theorem msum_filter_or (p q : R → Bool) (m : R → Option ℚ)
    (h : ∀ r, ¬(p r = true ∧ q r = true)) (l : List R) :
    msum m (l.filter (fun r => p r || q r)) = msum m (l.filter p) + msum m (l.filter q) := by
  induction l with
  | nil => simp [msum]
  | cons r rs ih =>
      by_cases hp : p r = true
      · have hq : q r = false := by
          cases hqq : q r
          · rfl
          · exact absurd ⟨hp, hqq⟩ (h r)
        rw [List.filter_cons_of_pos (by simp [hp]), List.filter_cons_of_pos hp,
          List.filter_cons_of_neg (by simp [hq]), msum_cons, msum_cons, ih]
        ring
      · have hp' : p r = false := by
          cases hpp : p r
          · rfl
          · exact absurd hpp hp
        by_cases hq : q r = true
        · rw [List.filter_cons_of_pos (by simp [hp', hq]),
            List.filter_cons_of_neg (by simp [hp']),
            List.filter_cons_of_pos hq, msum_cons, msum_cons, ih]
          ring
        · have hq' : q r = false := by
            cases hqq : q r
            · rfl
            · exact absurd hqq hq
          rw [List.filter_cons_of_neg (by simp [hp', hq']),
            List.filter_cons_of_neg (by simp [hp']),
            List.filter_cons_of_neg (by simp [hq']), ih]

theorem group_sum_keys (keyOf : R → Option K) [DecidableEq K] (m : R → Option ℚ)
    (l : List R) :
    ∀ keys : List K, keys.Nodup →
      (keys.map (fun k => msum m (groupRows keyOf l k))).sum
        = msum m (l.filter (fun r => memOptKey keys (keyOf r))) := by
  intro keys
  induction keys with
  | nil =>
      intro _
      have hp : ∀ r ∈ l, memOptKey ([] : List K) (keyOf r) = false := by
        intro r _
        cases keyOf r <;> simp [memOptKey]
      rw [List.filter_congr hp]
      simp [msum]
  | cons k ks ih =>
      intro hnd
      have hk : k ∉ ks := (List.nodup_cons.mp hnd).1
      simp only [List.map_cons, List.sum_cons]
      rw [ih (List.nodup_cons.mp hnd).2]
      have hdisj : ∀ r, ¬((fun r => decide (keyOf r = some k)) r = true
          ∧ (fun r => memOptKey ks (keyOf r)) r = true) := by
        rintro r ⟨h1, h2⟩
        have h3 : keyOf r = some k := of_decide_eq_true h1
        have h4 : memOptKey ks (keyOf r) = true := h2
        rw [h3] at h4
        exact hk (of_decide_eq_true h4)
      have := msum_filter_or (fun r => decide (keyOf r = some k))
        (fun r => memOptKey ks (keyOf r)) m hdisj l
      rw [groupRows, ← this]
      apply congrArg (msum m)
      apply List.filter_congr
      intro r _
      cases hkr : keyOf r with
      | none => simp [memOptKey]
      | some a =>
          by_cases ha : a = k
          · subst ha
            simp [memOptKey, List.mem_cons]
          · simp [memOptKey, List.mem_cons, ha]

theorem table_sum (keyOf : R → Option K) [DecidableEq K] (lt : K → K → Bool)
    (m : R → Option ℚ) (l : List R) :
    ((groupKeys keyOf lt l).map (fun k => msum m (groupRows keyOf l k))).sum
      = msum m (l.filter (fun r => (keyOf r).isSome)) := by
  unfold groupKeys
  rw [((sortBy_perm lt ((l.filterMap keyOf).dedup)).map
    (fun k => msum m (groupRows keyOf l k))).sum_eq]
  rw [group_sum_keys keyOf m l _ (List.nodup_dedup _)]
  apply congrArg (msum m)
  apply List.filter_congr
  intro r hr
  cases hk : keyOf r with
  | none => simp [memOptKey]
  | some k =>
      have hmem : k ∈ (l.filterMap keyOf).dedup :=
        List.mem_dedup.mpr (List.mem_filterMap.mpr ⟨r, hr, hk⟩)
      simp [memOptKey, hmem]

theorem finalDf_eq_map (now : Int) (raws : List RawRow) :
    finalDf now raws = raws.map (deriveRow now) := by
  simp only [finalDf, dfA, dfF, List.map_map]
  rfl

theorem vendorKey_deriveRow (now : Int) (r : RawRow) :
    vendorKey (deriveRow now r) = rawVendorKey r := rfl

/-- Claim C1: for the Vendor Spend table, the sum of each of the three summed
metrics over all table rows equals the sum of that metric over exactly the
input records whose four grouping fields are all non-null; records with a
null grouping field are dropped by the groupby and unparseable metric cells
contribute 0 to every sum. -/
theorem c1_vendor_spend_conservation (now : Int) (raws : List RawRow) :
    ((total_spend_by_vendor (finalDf now raws)).map (fun t => t.orderedSum)).sum
      = msum (fun r => toNumeric r.orderedValueCell)
          (raws.filter (fun r => (rawVendorKey r).isSome))
    ∧ ((total_spend_by_vendor (finalDf now raws)).map (fun t => t.invoiceSum)).sum
      = msum (fun r => toNumeric r.invoiceValueCell)
          (raws.filter (fun r => (rawVendorKey r).isSome))
    ∧ ((total_spend_by_vendor (finalDf now raws)).map (fun t => t.downPaymentSum)).sum
      = msum (fun r => toNumeric r.downPaymentCell)
          (raws.filter (fun r => (rawVendorKey r).isSome)) := by
  have hkey : ∀ r : RawRow, vendorKey (deriveRow now r) = rawVendorKey r :=
    vendorKey_deriveRow now
  refine ⟨?_, ?_, ?_⟩
  · rw [show (total_spend_by_vendor (finalDf now raws)).map (fun t => t.orderedSum)
        = (groupKeys vendorKey ltK4 (finalDf now raws)).map
            (fun k => msum (fun r => r.orderedValue)
              (groupRows vendorKey (finalDf now raws) k)) by
      unfold total_spend_by_vendor
      rw [List.map_map]
      rfl]
    rw [table_sum, finalDf_eq_map, filter_map_commute, msum_map]
    rw [List.filter_congr (fun r _ => by rw [hkey r])]
    rfl
  · rw [show (total_spend_by_vendor (finalDf now raws)).map (fun t => t.invoiceSum)
        = (groupKeys vendorKey ltK4 (finalDf now raws)).map
            (fun k => msum (fun r => r.invoiceValue)
              (groupRows vendorKey (finalDf now raws) k)) by
      unfold total_spend_by_vendor
      rw [List.map_map]
      rfl]
    rw [table_sum, finalDf_eq_map, filter_map_commute, msum_map]
    rw [List.filter_congr (fun r _ => by rw [hkey r])]
    rfl
  · rw [show (total_spend_by_vendor (finalDf now raws)).map (fun t => t.downPaymentSum)
        = (groupKeys vendorKey ltK4 (finalDf now raws)).map
            (fun k => msum (fun r => r.downPayment)
              (groupRows vendorKey (finalDf now raws) k)) by
      unfold total_spend_by_vendor
      rw [List.map_map]
      rfl]
    rw [table_sum, finalDf_eq_map, filter_map_commute, msum_map]
    rw [List.filter_congr (fun r _ => by rw [hkey r])]
    rfl

theorem round2_zero : round2 0 = 0 := by
  with_unfolding_all decide

/-- Claim C3: in every Vendor Delivery Summary row the delivery percentage is
`100 * Total_Delivered / Total_Orders` rounded to two decimals when
`Total_Orders > 0` and exactly 0 otherwise; the computation is total (the
model divides in ℚ, so no division by zero and no NaN can be produced). -/
theorem c3_delivery_percentage_safe (df : List TRow) (v : VSumRow)
    (hv : v ∈ vendor_summary df) :
    v.deliveryPct = if 0 < v.totalOrders
      then round2 (100 * v.totalDelivered / v.totalOrders) else 0 := by
  unfold vendor_summary at hv
  rcases List.mem_map.mp hv with ⟨k, _, rfl⟩
  show round2
      (if 0 < msum (fun r => r.orderedQuantity) (groupRows vendorKey df k)
       then msum (fun r => r.deliveryQuantity) (groupRows vendorKey df k)
          / msum (fun r => r.orderedQuantity) (groupRows vendorKey df k) * 100
       else 0)
    = if 0 < msum (fun r => r.orderedQuantity) (groupRows vendorKey df k)
      then round2 (100 * msum (fun r => r.deliveryQuantity) (groupRows vendorKey df k)
          / msum (fun r => r.orderedQuantity) (groupRows vendorKey df k))
      else 0
  by_cases h : 0 < msum (fun r => r.orderedQuantity) (groupRows vendorKey df k)
  · rw [if_pos h, if_pos h]
    congr 1
    ring
  · rw [if_neg h, if_neg h, round2_zero]

/-- Witness for C3 at the one-vendor snapshot ordering 4 units with 3
delivered: the summary row carries percentage 75. -/
theorem c3_witness :
    vRow3.deliveryPct = if 0 < vRow3.totalOrders
      then round2 (100 * vRow3.totalDelivered / vRow3.totalOrders) else 0 :=
  c3_delivery_percentage_safe (finalDf 0 [r3c]) vRow3 (by with_unfolding_all decide)

theorem periodOfDay_length (d : Int) : 4 ≤ (periodOfDay d).length := by
  have h : ∀ cs : List Char, (String.mk cs).length = cs.length := fun _ => rfl
  unfold periodOfDay
  rw [h]
  simp [pad4, List.length_append, List.length_replicate]
  omega

theorem periodOfDay_ne_nat (d : Int) : periodOfDay d ≠ "NaT" := by
  intro hcontra
  have h1 := periodOfDay_length d
  rw [hcontra] at h1
  have h2 : ("NaT" : String).length = 3 := rfl
  omega

theorem monthOfDoc_nat (o : Option Int) : monthOfDoc o = "NaT" ↔ o = none := by
  cases o with
  | none => simp [monthOfDoc]
  | some d => simp [monthOfDoc, periodOfDay_ne_nat d]

/-- Claim C6 as stated is false: a record with a null document date is not
excluded from the period-keyed aggregates.  `astype(str)` renders its period
as the string (NaT), which forms its own bucket in both the Monthly Spend
Trend and the Monthly Vendor Spend tables. -/
theorem c6_counterexample :
    spend_trend (finalDf 0 [r6cex])
      = [{ month := ("NaT"), orderedSum := 100, invoiceSum := 100 }]
    ∧ monthly_spend (finalDf 0 [r6cex])
      = [{ month := ("NaT"), vendorName := ("V"), vendorNumber := ("1"),
           entityName := ("E"), category := ("IT"),
           orderedSum := 100, invoiceSum := 100, downPaymentSum := 0 }] := by
  with_unfolding_all decide

/-- Claim C6, amended: the period is derived solely from the document date at
month granularity, a null document date yielding the literal string (NaT);
such records are not excluded from period-keyed aggregates but form their own
(NaT) bucket, whose sums cover exactly the null-document-date records, and
the aggregation never fails. -/
theorem c6_period_amended :
    (∀ r : RawRow, ((normRow r).month = "NaT" ↔ r.documentDate = none))
    ∧ (∀ (now : Int) (raws : List RawRow),
        (("NaT") ∈ (spend_trend (finalDf now raws)).map TrendRow.month
          ↔ ∃ r ∈ raws, r.documentDate = none))
    ∧ (∀ (now : Int) (raws : List RawRow) (t : TrendRow),
        t ∈ spend_trend (finalDf now raws) → t.month = "NaT" →
          t.orderedSum = msum (fun r => toNumeric r.orderedValueCell)
            (raws.filter (fun r => r.documentDate.isNone))) := by
  have hmonth : ∀ (now : Int) (raw : RawRow),
      (deriveRow now raw).month = monthOfDoc raw.documentDate := fun _ _ => rfl
  refine ⟨?_, ?_, ?_⟩
  · intro r
    exact monthOfDoc_nat r.documentDate
  · intro now raws
    have hmap : (spend_trend (finalDf now raws)).map TrendRow.month
        = groupKeys (fun r : TRow => some r.month) ltStr (finalDf now raws) := by
      unfold spend_trend
      rw [List.map_map]
      exact List.map_id' _
    rw [hmap]
    unfold groupKeys
    rw [(sortBy_perm ltStr _).mem_iff, List.mem_dedup, List.mem_filterMap]
    constructor
    · rintro ⟨t, ht, hm⟩
      rw [finalDf_eq_map] at ht
      rcases List.mem_map.mp ht with ⟨raw, hraw, rfl⟩
      have h2 : monthOfDoc raw.documentDate = "NaT" := by
        rw [← hmonth now raw]
        exact Option.some.inj hm
      exact ⟨raw, hraw, (monthOfDoc_nat _).mp h2⟩
    · rintro ⟨raw, hraw, hdoc⟩
      refine ⟨deriveRow now raw, ?_, ?_⟩
      · rw [finalDf_eq_map]
        exact List.mem_map.mpr ⟨raw, hraw, rfl⟩
      · rw [hmonth now raw, hdoc]
        rfl
  · intro now raws t ht hNaT
    unfold spend_trend at ht
    rcases List.mem_map.mp ht with ⟨k, _, rfl⟩
    have hkN : k = "NaT" := hNaT
    subst hkN
    show msum (fun r => r.orderedValue)
        (groupRows (fun r : TRow => some r.month) (finalDf now raws) ("NaT")) = _
    unfold groupRows
    rw [finalDf_eq_map, filter_map_commute, msum_map]
    rw [List.filter_congr (fun raw _ => ?_)]
    · rfl
    · show decide (some (deriveRow now raw).month = some ("NaT")) = raw.documentDate.isNone
      rw [hmonth now raw]
      cases hdoc : raw.documentDate with
      | none => simp [monthOfDoc]
      | some d => simp [monthOfDoc, periodOfDay_ne_nat d]

/-- Witness for the amended C6: the single null-document-date record forms
the (NaT) bucket of the Monthly Spend Trend and its ordered-value sum covers
exactly that record. -/
theorem c6_witness :
    (("NaT") ∈ (spend_trend (finalDf 0 [r6cex])).map TrendRow.month)
    ∧ ({ month := ("NaT"), orderedSum := 100, invoiceSum := 100 } : TrendRow).orderedSum
        = msum (fun r => toNumeric r.orderedValueCell)
            (([r6cex]).filter (fun r => r.documentDate.isNone)) :=
  ⟨(c6_period_amended.2.1 0 [r6cex]).mpr ⟨r6cex, by simp, rfl⟩,
   c6_period_amended.2.2 0 [r6cex] _ (by with_unfolding_all decide) rfl⟩

/-- Claim C9, amended: every stored table is a deterministic function of the
snapshot and of the single instant read at src/p.py line 56, and every stored
table except the full record frame `df` and `quantity_errors` (both of which
carry the time-dependent `On_Time` column) is a function of the snapshot
alone: recomputing at a different instant leaves all thirteen other tables
bit-identical. -/
theorem c9_determinism_amended (now now' : Int) (raws : List RawRow) :
    (runPipeline now raws).total_spend_by_vendor
        = (runPipeline now' raws).total_spend_by_vendor
    ∧ (runPipeline now raws).total_spend_by_material
        = (runPipeline now' raws).total_spend_by_material
    ∧ (runPipeline now raws).total_spend_by_service_area
        = (runPipeline now' raws).total_spend_by_service_area
    ∧ (runPipeline now raws).top_10_vendors = (runPipeline now' raws).top_10_vendors
    ∧ (runPipeline now raws).top_10_materials = (runPipeline now' raws).top_10_materials
    ∧ (runPipeline now raws).top_10_vendors_monthly
        = (runPipeline now' raws).top_10_vendors_monthly
    ∧ (runPipeline now raws).vendor_summary = (runPipeline now' raws).vendor_summary
    ∧ (runPipeline now raws).delayed_pos = (runPipeline now' raws).delayed_pos
    ∧ (runPipeline now raws).overbilling_cases = (runPipeline now' raws).overbilling_cases
    ∧ (runPipeline now raws).spend_trend = (runPipeline now' raws).spend_trend
    ∧ (runPipeline now raws).vendor_spend = (runPipeline now' raws).vendor_spend
    ∧ (runPipeline now raws).entity_spend = (runPipeline now' raws).entity_spend
    ∧ (runPipeline now raws).overbilling_df = (runPipeline now' raws).overbilling_df := by
  have hv : total_spend_by_vendor (finalDf now raws)
      = total_spend_by_vendor (finalDf now' raws) := by
    simp only [total_spend_by_vendor, groupKeys, groupRows, msum, finalDf, dfA, dfF,
      List.map_map, List.filterMap_map, List.filter_map]
    rfl
  have hm : total_spend_by_material (finalDf now raws)
      = total_spend_by_material (finalDf now' raws) := by
    simp only [total_spend_by_material, groupKeys, groupRows, msum, finalDf, dfA, dfF,
      List.map_map, List.filterMap_map, List.filter_map]
    rfl
  have hs : total_spend_by_service_area (finalDf now raws)
      = total_spend_by_service_area (finalDf now' raws) := by
    simp only [total_spend_by_service_area, groupKeys, groupRows, msum, finalDf, dfA, dfF,
      List.map_map, List.filterMap_map, List.filter_map]
    rfl
  have hmsp : monthly_spend (finalDf now raws) = monthly_spend (finalDf now' raws) := by
    simp only [monthly_spend, groupKeys, groupRows, msum, finalDf, dfA, dfF,
      List.map_map, List.filterMap_map, List.filter_map]
    rfl
  have hvs : vendor_summary (finalDf now raws) = vendor_summary (finalDf now' raws) := by
    simp only [vendor_summary, groupKeys, groupRows, msum, finalDf, dfA, dfF,
      List.map_map, List.filterMap_map, List.filter_map]
    rfl
  have hdp : delayed_pos (finalDf now raws) = delayed_pos (finalDf now' raws) := by
    simp only [delayed_pos, finalDf, dfA, dfF, List.map_map, List.filter_map]
    rfl
  have hst : spend_trend (finalDf now raws) = spend_trend (finalDf now' raws) := by
    simp only [spend_trend, groupKeys, groupRows, msum, finalDf, dfA, dfF,
      List.map_map, List.filterMap_map, List.filter_map]
    rfl
  have hvsp : vendor_spend (finalDf now raws) = vendor_spend (finalDf now' raws) := by
    simp only [vendor_spend, groupKeys, groupRows, msum, finalDf, dfA, dfF,
      List.map_map, List.filterMap_map, List.filter_map]
    rfl
  have hes : entity_spend (finalDf now raws) = entity_spend (finalDf now' raws) := by
    simp only [entity_spend, groupKeys, groupRows, msum, finalDf, dfA, dfF,
      List.map_map, List.filterMap_map, List.filter_map]
    rfl
  exact ⟨hv, hm, hs, congrArg (fun t => (sortBy ltDescV t).take 10) hv,
    congrArg (fun t => (sortBy ltDescMat t).take 10) hm,
    congrArg (fun t => headPerMonth 10 (sortBy ltLexM t) (fun _ => 0)) hmsp,
    hvs, hdp, rfl, hst, hvsp, hes, rfl⟩

theorem insertBy_pairwise (lt : α → α → Bool)
    (hasym : ∀ a b, lt a b = true → lt b a = false)
    (hneg : ∀ a b c, lt b a = false → lt c b = false → lt c a = false)
    (x : α) (l : List α) (hl : l.Pairwise (fun a b => lt b a = false)) :
    (insertBy lt x l).Pairwise (fun a b => lt b a = false) := by
  induction l with
  | nil => simp [insertBy]
  | cons y ys ih =>
      rcases List.pairwise_cons.mp hl with ⟨hy, hys⟩
      by_cases h : lt y x = true
      · rw [show insertBy lt x (y :: ys) = y :: insertBy lt x ys from by simp [insertBy, h]]
        rw [List.pairwise_cons]
        constructor
        · intro z hz
          have hz3 : z ∈ x :: ys := (insertBy_perm lt x ys).mem_iff.mp hz
          rcases List.mem_cons.mp hz3 with rfl | hz2
          · exact hasym _ _ h
          · exact hy z hz2
        · exact ih hys
      · have h' : lt y x = false := by
          cases hh : lt y x
          · rfl
          · exact absurd hh h
        rw [show insertBy lt x (y :: ys) = x :: y :: ys from by simp [insertBy, h']]
        rw [List.pairwise_cons]
        constructor
        · intro z hz
          rcases List.mem_cons.mp hz with rfl | hz2
          · exact h'
          · exact hneg x y z h' (hy z hz2)
        · exact hl

theorem sortBy_pairwise (lt : α → α → Bool)
    (hasym : ∀ a b, lt a b = true → lt b a = false)
    (hneg : ∀ a b c, lt b a = false → lt c b = false → lt c a = false)
    (l : List α) : (sortBy lt l).Pairwise (fun a b => lt b a = false) := by
  induction l with
  | nil => simp [sortBy]
  | cons x xs ih => exact insertBy_pairwise lt hasym hneg x _ ih

theorem ltLexM_iff (a b : MSpendRow) : ltLexM a b = true ↔
    (a.month < b.month ∨ (a.month = b.month ∧ b.orderedSum < a.orderedSum)) := by
  simp [ltLexM, Bool.or_eq_true, Bool.and_eq_true, decide_eq_true_eq]

theorem ltLexM_asym (a b : MSpendRow) (h : ltLexM a b = true) : ltLexM b a = false := by
  rw [ltLexM_iff] at h
  have hn : ¬(ltLexM b a = true) := by
    rw [ltLexM_iff]
    rintro (h2 | ⟨h2e, h2v⟩)
    · rcases h with h1 | ⟨h1e, _⟩
      · exact absurd h2 (lt_asymm h1)
      · rw [h1e] at h2
        exact lt_irrefl _ h2
    · rcases h with h1 | ⟨h1e, h1v⟩
      · rw [h2e] at h1
        exact lt_irrefl _ h1
      · exact absurd h2v (lt_asymm h1v)
  cases hh : ltLexM b a
  · rfl
  · exact absurd hh hn

theorem ltLexM_negtrans (a b c : MSpendRow)
    (h1 : ltLexM b a = false) (h2 : ltLexM c b = false) : ltLexM c a = false := by
  have hn1 : ¬(ltLexM b a = true) := by rw [h1]; simp
  have hn2 : ¬(ltLexM c b = true) := by rw [h2]; simp
  rw [ltLexM_iff] at hn1 hn2
  push_neg at hn1 hn2
  have hm1 : a.month ≤ b.month := le_of_not_lt hn1.1
  have hm2 : b.month ≤ c.month := le_of_not_lt hn2.1
  have hn3 : ¬(ltLexM c a = true) := by
    rw [ltLexM_iff]
    push_neg
    constructor
    · exact not_lt_of_ge (le_trans hm1 hm2)
    · intro hce
      have hba : b.month = a.month := le_antisymm (hce ▸ hm2) hm1
      have hcb : c.month = b.month := by rw [hce, hba]
      exact le_trans (hn2.2 hcb) (hn1.2 hba)
  cases hh : ltLexM c a
  · rfl
  · exact absurd hh hn3

theorem ltDescM_eqmonth (a b : MSpendRow) (h : a.month = b.month) :
    ltLexM a b = ltDescM a b := by
  simp [ltLexM, ltDescM, h, lt_irrefl]

theorem filter_insertBy_ne (x : MSpendRow) (l : List MSpendRow) (m : String)
    (hx : decide (x.month = m) = false) :
    (insertBy ltLexM x l).filter (fun r => decide (r.month = m))
      = l.filter (fun r => decide (r.month = m)) := by
  induction l with
  | nil => simp [insertBy, hx]
  | cons y ys ih =>
      by_cases h : ltLexM y x = true
      · rw [show insertBy ltLexM x (y :: ys) = y :: insertBy ltLexM x ys from by
          simp [insertBy, h]]
        by_cases hy : decide (y.month = m) = true
        · rw [List.filter_cons_of_pos (by exact hy), List.filter_cons_of_pos (by exact hy), ih]
        · have hy' : decide (y.month = m) = false := by
            cases hh : decide (y.month = m)
            · rfl
            · exact absurd hh hy
          rw [List.filter_cons_of_neg (by simp [hy']), List.filter_cons_of_neg (by simp [hy']), ih]
      · have h' : ltLexM y x = false := by
          cases hh : ltLexM y x
          · rfl
          · exact absurd hh h
        rw [show insertBy ltLexM x (y :: ys) = x :: y :: ys from by simp [insertBy, h']]
        rw [List.filter_cons_of_neg (by simp [hx])]

theorem filter_insertBy_eq (x : MSpendRow) (l : List MSpendRow) (m : String)
    (hx : decide (x.month = m) = true)
    (hl : l.Pairwise (fun a b => ltLexM b a = false)) :
    (insertBy ltLexM x l).filter (fun r => decide (r.month = m))
      = insertBy ltDescM x (l.filter (fun r => decide (r.month = m))) := by
  induction l with
  | nil => simp [insertBy, of_decide_eq_true hx]
  | cons y ys ih =>
      rcases List.pairwise_cons.mp hl with ⟨hy, hys⟩
      by_cases h : ltLexM y x = true
      · rw [show insertBy ltLexM x (y :: ys) = y :: insertBy ltLexM x ys from by
          simp [insertBy, h]]
        by_cases hym : decide (y.month = m) = true
        · have hme : y.month = x.month := by
            rw [of_decide_eq_true hym, of_decide_eq_true hx]
          have hd : ltDescM y x = true := by
            rw [← ltDescM_eqmonth y x hme]
            exact h
          rw [List.filter_cons_of_pos (by exact hym), ih hys,
            List.filter_cons_of_pos (by exact hym)]
          rw [show insertBy ltDescM x (y :: ys.filter (fun r => decide (r.month = m)))
              = y :: insertBy ltDescM x (ys.filter (fun r => decide (r.month = m))) from by
            simp [insertBy, hd]]
        · have hym' : decide (y.month = m) = false := by
            cases hh : decide (y.month = m)
            · rfl
            · exact absurd hh hym
          rw [List.filter_cons_of_neg (by simp [hym']), ih hys,
            List.filter_cons_of_neg (by simp [hym'])]
      · have h' : ltLexM y x = false := by
          cases hh : ltLexM y x
          · rfl
          · exact absurd hh h
        rw [show insertBy ltLexM x (y :: ys) = x :: y :: ys from by simp [insertBy, h']]
        rw [List.filter_cons_of_pos (by exact hx)]
        have hall : ∀ z ∈ y :: ys, ltLexM z x = false := by
          intro z hz
          rcases List.mem_cons.mp hz with rfl | hz2
          · exact h'
          · exact ltLexM_negtrans x y z h' (hy z hz2)
        cases hfl : (y :: ys).filter (fun r => decide (r.month = m)) with
        | nil => simp [insertBy]
        | cons z zs =>
            have hzmem : z ∈ (y :: ys).filter (fun r => decide (r.month = m)) := by
              rw [hfl]
              exact List.mem_cons_self _ _
            have hz2 := List.mem_filter.mp hzmem
            have hzm : z.month = x.month := by
              rw [of_decide_eq_true hz2.2, of_decide_eq_true hx]
            have hzd : ltDescM z x = false := by
              rw [← ltDescM_eqmonth z x hzm]
              exact hall z hz2.1
            simp [insertBy, hzd]

theorem filter_sortBy_lex (l : List MSpendRow) (m : String) :
    (sortBy ltLexM l).filter (fun r => decide (r.month = m))
      = sortBy ltDescM (l.filter (fun r => decide (r.month = m))) := by
  induction l with
  | nil => rfl
  | cons r rs ih =>
      show (insertBy ltLexM r (sortBy ltLexM rs)).filter (fun r => decide (r.month = m))
        = sortBy ltDescM ((r :: rs).filter (fun r => decide (r.month = m)))
      by_cases hr : decide (r.month = m) = true
      · rw [filter_insertBy_eq r _ m hr (sortBy_pairwise ltLexM ltLexM_asym ltLexM_negtrans rs),
          ih, List.filter_cons_of_pos (by exact hr)]
        rfl
      · have hr' : decide (r.month = m) = false := by
          cases hh : decide (r.month = m)
          · rfl
          · exact absurd hh hr
        rw [filter_insertBy_ne r _ m hr', ih, List.filter_cons_of_neg (by simp [hr'])]

theorem filter_headPerMonth (n : Nat) (m : String) :
    ∀ (l : List MSpendRow) (cnt : String → Nat),
      (headPerMonth n l cnt).filter (fun r => decide (r.month = m))
        = ((l.filter (fun r => decide (r.month = m))).take (n - cnt m)) := by
  intro l
  induction l with
  | nil =>
      intro cnt
      simp [headPerMonth]
  | cons r rs ih =>
      intro cnt
      by_cases hc : cnt r.month < n
      · rw [show headPerMonth n (r :: rs) cnt
            = r :: headPerMonth n rs (fun x => if x = r.month then cnt x + 1 else cnt x) from by
          simp [headPerMonth, hc]]
        by_cases hrm : decide (r.month = m) = true
        · have hm2 : r.month = m := of_decide_eq_true hrm
          rw [List.filter_cons_of_pos (by exact hrm), ih, List.filter_cons_of_pos (by exact hrm)]
          have hcnt : (if m = r.month then cnt m + 1 else cnt m) = cnt m + 1 :=
            if_pos hm2.symm
          rw [hcnt]
          rw [hm2] at hc
          rw [show n - cnt m = (n - (cnt m + 1)) + 1 from by omega]
          rw [List.take_succ_cons]
        · have hrm' : decide (r.month = m) = false := by
            cases hh : decide (r.month = m)
            · rfl
            · exact absurd hh hrm
          have hne : ¬(m = r.month) := by
            intro hcon
            rw [hcon] at hrm'
            simp at hrm'
          rw [List.filter_cons_of_neg (by simp [hrm']), ih,
            List.filter_cons_of_neg (by simp [hrm'])]
          rw [if_neg hne]
      · rw [show headPerMonth n (r :: rs) cnt
            = headPerMonth n rs (fun x => if x = r.month then cnt x + 1 else cnt x) from by
          simp [headPerMonth, hc]]
        rw [ih]
        by_cases hrm : decide (r.month = m) = true
        · have hm2 : r.month = m := of_decide_eq_true hrm
          rw [List.filter_cons_of_pos (by exact hrm)]
          have hcnt : (if m = r.month then cnt m + 1 else cnt m) = cnt m + 1 :=
            if_pos hm2.symm
          rw [hcnt]
          rw [hm2] at hc
          rw [show n - (cnt m + 1) = 0 from by omega, show n - cnt m = 0 from by omega]
          rw [List.take_zero, List.take_zero]
        · have hrm' : decide (r.month = m) = false := by
            cases hh : decide (r.month = m)
            · rfl
            · exact absurd hh hrm
          have hne : ¬(m = r.month) := by
            intro hcon
            rw [hcon] at hrm'
            simp at hrm'
          rw [List.filter_cons_of_neg (by simp [hrm']), if_neg hne]

/-- Claim C7: (a) the per-period Top-10 table restricted to any period equals
the first 10 rows of that period's stable descending sub-sort of the full
monthly table, ties broken by original row order; (b) the overall Top-10
tables are the descending sort of the full table truncated to 10 rows; and
(c) with at most 10 rows (at most 10 distinct keys) the Top-10 tables are the
whole table sorted descending, with no padding and no failure. -/
theorem c7_top_n_tables (df : List TRow) (m : String) :
    ((top_10_vendors_monthly df).filter (fun r => decide (r.month = m))
        = (sortBy ltDescM ((monthly_spend df).filter (fun r => decide (r.month = m)))).take 10)
    ∧ top_10_vendors df = (sortBy ltDescV (total_spend_by_vendor df)).take 10
    ∧ ((total_spend_by_vendor df).length ≤ 10 →
        top_10_vendors df = sortBy ltDescV (total_spend_by_vendor df))
    ∧ ((total_spend_by_material df).length ≤ 10 →
        top_10_materials df = sortBy ltDescMat (total_spend_by_material df)) := by
  refine ⟨?_, rfl, ?_, ?_⟩
  · show (headPerMonth 10 (monthly_spend_sorted df) (fun _ => 0)).filter
        (fun r => decide (r.month = m)) = _
    rw [filter_headPerMonth 10 m (monthly_spend_sorted df) (fun _ => 0)]
    unfold monthly_spend_sorted
    rw [filter_sortBy_lex]
  · intro h
    exact sortBy_take_all ltDescV _ h
  · intro h
    exact sortBy_take_all ltDescMat _ h

/-- Witness for C7 on the one-row snapshot: the (NaT) period of the monthly
table and the single-key vendor table. -/
theorem c7_witness :
    ((top_10_vendors_monthly (finalDf 0 [r7w])).filter (fun r => decide (r.month = ("NaT")))
        = (sortBy ltDescM ((monthly_spend (finalDf 0 [r7w])).filter
            (fun r => decide (r.month = ("NaT"))))).take 10)
    ∧ top_10_vendors (finalDf 0 [r7w])
        = sortBy ltDescV (total_spend_by_vendor (finalDf 0 [r7w])) :=
  ⟨(c7_top_n_tables (finalDf 0 [r7w]) ("NaT")).1,
   (c7_top_n_tables (finalDf 0 [r7w]) ("NaT")).2.2.1 (by with_unfolding_all decide)⟩
